import Mathlib

/-!
Shallow embedding of the WellNest nutrition & training-load analytics engine
(`app/core/calculations.py`, `app/api/v1/athlete.py`, `app/api/v1/deficit.py`)
and proofs of the spec claims about it.

Conventions of the embedding:
* Python floats are modelled as exact rationals `ℚ`.
* Python `int(x)` truncates toward zero: `pyInt`.
* Python `round(x, n)` rounds half to even (banker's rounding): `pyRound`,
  `round1`, `round2`.
* A Python expression that can raise (`KeyError` on a direct dict index,
  `ZeroDivisionError` on an unguarded division) is embedded in `Option`,
  with `none` for the raised fault.
* Python `dict.get(k, d)` on string-keyed tables is an association-list
  lookup with a default, so unknown string keys exercise the default.
-/

set_option maxHeartbeats 1000000

namespace WellNest

/-- Python `int(x)`: truncation toward zero. -/
def pyInt (q : ℚ) : ℤ := if q < 0 then ⌈q⌉ else ⌊q⌋

/-- Python `round(x)` to an integer: nearest, ties to even. -/
def pyRound (q : ℚ) : ℤ :=
  let n := ⌊q⌋
  let f := q - n
  if f < 1/2 then n
  else if 1/2 < f then n + 1
  else if n % 2 = 0 then n else n + 1

/-- Python `round(x, 1)`. -/
def round1 (q : ℚ) : ℚ := (pyRound (q * 10) : ℚ) / 10

/-- Python `round(x, 2)`. -/
def round2 (q : ℚ) : ℚ := (pyRound (q * 100) : ℚ) / 100

/-- Embedding of the `Gender` enum from `calculations.py`. -/
inductive Gender where
  | male
  | female
  | other
deriving DecidableEq

/-- Embedding of `calculate_bmr` (Mifflin-St Jeor): `10·w + 6.25·h − 5·age`, then `+5` for
male, `−161` for female, `−78` for other.
-/
def calculate_bmr (weight_kg height_cm : ℚ) (age : ℤ) (gender : Gender) : ℚ :=
  let base_bmr := 10 * weight_kg + (625/100) * height_cm - 5 * age
  match gender with
  | Gender.male => base_bmr + 5
  | Gender.female => base_bmr - 161
  | Gender.other => base_bmr - 78

/-- Embedding of `ACTIVITY_MULTIPLIERS`: string-keyed table (the Python enum is a `str`
subclass, so lookup is by string value).
-/
def ACTIVITY_MULTIPLIERS : List (String × ℚ) :=
  [("sedentary", 12/10), ("light", 1375/1000), ("moderate", 155/100),
   ("active", 1725/1000), ("very_active", 19/10)]

/-- Embedding of `calculate_tdee`: `bmr × multiplier`, `.get` default 1.55. -/
def calculate_tdee (bmr : ℚ) (activity_level : String) : ℚ :=
  bmr * ((ACTIVITY_MULTIPLIERS.lookup activity_level).getD (155/100))

/-- Embedding of `GOAL_CALORIE_ADJUSTMENTS`: string-keyed table. -/
def GOAL_CALORIE_ADJUSTMENTS : List (String × ℚ) :=
  [("lose_weight", -500), ("maintain", 0), ("gain_muscle", 300),
   ("improve_health", 0)]

/-- Embedding of `calculate_daily_calories`: tdee plus the goal adjustment (`.get` default 0)
or the custom adjustment when supplied, truncated to int and floored at 1200.
-/
def calculate_daily_calories (tdee : ℚ) (goal_type : String)
    (custom_adjustment : Option ℤ) : ℤ :=
  let adjustment : ℚ :=
    match custom_adjustment with
    | some c => (c : ℚ)
    | none => (GOAL_CALORIE_ADJUSTMENTS.lookup goal_type).getD 0
  max (pyInt (tdee + adjustment)) 1200

/-!
## Recovery scorer (`calculate_recovery_score`, calculations.py lines 405-493)

The function accumulates `(score, weight)` pairs: sleep and resting-HR
unconditionally, then HRV (weight 0.20 with a baseline, 0.10 without) and
the averaged subjective metrics (weight 0.20) when present, then divides
each weight by the total weight and returns the clamped weighted sum.
The HRV branch divides `hrv_ms / baseline_hrv` unguarded, so
`baseline_hrv = 0` with `hrv_ms` present raises; that fault is `none`.
-/

/-- Sleep component: 100 in [7,9] h, `(h/7)·100` below, `100−(h−9)·10` above,
floored at 0. -/
def sleepScore (sleep_hours : ℚ) : ℚ :=
  if 7 ≤ sleep_hours ∧ sleep_hours ≤ 9 then 100
  else if sleep_hours < 7 then max 0 (sleep_hours / 7 * 100)
  else max 0 (100 - (sleep_hours - 9) * 10)

/-- Resting-HR component: `max(0, 100 − 5·|current − baseline|)`. -/
def hrScore (resting_hr baseline_resting_hr : ℤ) : ℚ :=
  max 0 (100 - (|resting_hr - baseline_resting_hr| : ℤ) * 5)

/-- HRV component as a (possibly empty) list of `(score, weight)` pairs;
`none` is the `ZeroDivisionError` fault when `baseline_hrv = 0`. -/
def hrvComponent : Option ℤ → Option ℤ → Option (List (ℚ × ℚ))
  | some h, some b =>
    if b = 0 then none
    else
      let hrv_ratio : ℚ := (h : ℚ) / (b : ℚ)
      let hrv_score := if 1 ≤ hrv_ratio then min 100 (80 + (hrv_ratio - 1) * 40)
                       else max 0 (hrv_ratio * 80)
      some [(hrv_score, 1/5)]
  | some h, none => some [(min 100 ((h : ℚ) / 80 * 100), 1/10)]
  | none, _ => some []

/-- The inverted 1-10 subjective scores, in source order. -/
def subjectiveScores (muscle_soreness fatigue_level stress_level : Option ℤ) :
    List ℚ :=
  (match muscle_soreness with
   | some v => [((11 - v : ℤ) : ℚ) * 10]
   | none => []) ++
  (match fatigue_level with
   | some v => [((11 - v : ℤ) : ℚ) * 10]
   | none => []) ++
  (match stress_level with
   | some v => [((11 - v : ℤ) : ℚ) * 10]
   | none => [])

/-- Subjective component: the average of the present subjective scores with
weight 0.20, or nothing when none are present. -/
def subjectiveComponent (muscle_soreness fatigue_level stress_level : Option ℤ) :
    List (ℚ × ℚ) :=
  let l := subjectiveScores muscle_soreness fatigue_level stress_level
  if l.isEmpty then [] else [(l.sum / (l.length : ℚ), 1/5)]

/-- The full `(score, weight)` list built by `calculate_recovery_score`;
`none` when the HRV branch raises. -/
def recoveryComponents (sleep_hours : ℚ) (resting_hr baseline_resting_hr : ℤ)
    (hrv_ms baseline_hrv muscle_soreness fatigue_level stress_level : Option ℤ) :
    Option (List (ℚ × ℚ)) :=
  (hrvComponent hrv_ms baseline_hrv).map fun hc =>
    [(sleepScore sleep_hours, 7/20), (hrScore resting_hr baseline_resting_hr, 1/4)]
      ++ hc ++ subjectiveComponent muscle_soreness fatigue_level stress_level

/-- Embedding of `calculate_recovery_score`: weighted sum with weights normalized by their
total, truncated to int and clamped to [0, 100]. -/
def calculate_recovery_score (sleep_hours : ℚ)
    (resting_hr baseline_resting_hr : ℤ)
    (hrv_ms baseline_hrv muscle_soreness fatigue_level stress_level : Option ℤ) :
    Option ℤ :=
  (recoveryComponents sleep_hours resting_hr baseline_resting_hr
      hrv_ms baseline_hrv muscle_soreness fatigue_level stress_level).map
    fun comps =>
      let total_weight := (comps.map Prod.snd).sum
      let recovery_score := (comps.map fun p => p.1 * (p.2 / total_weight)).sum
      min 100 (max 0 (pyInt recovery_score))

/-!
## Readiness scorer (`calculate_readiness_score`, calculations.py lines 496-553)
-/

/-- ACWR component of the readiness score: piecewise score of
`training_load_7day / training_load_28day` when the chronic load is
positive, neutral 50 otherwise. -/
def acwrScoreOf (training_load_7day training_load_28day : ℚ) : ℚ :=
  if 0 < training_load_28day then
    let acwr := training_load_7day / training_load_28day
    if 8/10 ≤ acwr ∧ acwr ≤ 13/10 then 100
    else if acwr < 8/10 then max 0 (acwr / (8/10) * 100)
    else max 0 (100 - (acwr - 13/10) * 100)
  else 50

/-- Embedding of `calculate_readiness_score`: `0.40·recovery + 0.30·acwr_score +
0.30·sleep_pattern_score`, clamped to [0, 100]. The sleep-pattern ratio
`sleep_hours / avg_sleep_hours` is not guarded, so `avg_sleep_hours = 0`
raises `ZeroDivisionError`, embedded as `none`. -/
def calculate_readiness_score (recovery_score : ℤ)
    (training_load_7day training_load_28day sleep_hours avg_sleep_hours : ℚ) :
    Option ℤ :=
  if avg_sleep_hours = 0 then none
  else
    let s1 := (recovery_score : ℚ) * (4/10)
    let s2 := acwrScoreOf training_load_7day training_load_28day * (3/10)
    let sleep_ratio := sleep_hours / avg_sleep_hours
    let sleep_pattern_score := if 1 ≤ sleep_ratio then (100 : ℚ)
                               else max 0 (sleep_ratio * 100)
    let s3 := sleep_pattern_score * (3/10)
    some (min 100 (max 0 (pyInt (s1 + s2 + s3))))

/-!
## Athlete macro allocator (`calculate_macros_athlete`, calculations.py
lines 215-291)

The protein table is indexed directly (`protein_per_kg[training_type]
[training_phase]`), so an unknown training type or phase raises `KeyError`:
embedded as `none`. The grams are computed exactly as in the source
(`athleteMacroCore`); `calculate_macros_athlete` then derives the macro
calories and percentages from them and rounds for the returned record.
-/

/-- Embedding of the `protein_per_kg` nested table. -/
def PROTEIN_PER_KG : List (String × List (String × ℚ)) :=
  [("strength", [("building", 22/10), ("cutting", 24/10),
                 ("maintenance", 18/10), ("competition", 2)]),
   ("endurance", [("building", 14/10), ("cutting", 16/10),
                  ("maintenance", 12/10), ("competition", 14/10)]),
   ("mixed", [("building", 18/10), ("cutting", 2),
              ("maintenance", 16/10), ("competition", 18/10)]),
   ("power", [("building", 24/10), ("cutting", 26/10),
              ("maintenance", 2), ("competition", 22/10)])]

/-- Embedding of the `fat_per_kg` table. -/
def FAT_PER_KG : List (String × ℚ) :=
  [("strength", 8/10), ("endurance", 7/10), ("mixed", 3/4), ("power", 85/100)]

/-- Direct nested-dict index `protein_per_kg[training_type][training_phase]`;
`none` is the `KeyError` fault. -/
def proteinPerKg (training_type training_phase : String) : Option ℚ :=
  (PROTEIN_PER_KG.lookup training_type).bind fun t => t.lookup training_phase

/-- Direct dict index `fat_per_kg[training_type]`. -/
def fatPerKg (training_type : String) : Option ℚ :=
  FAT_PER_KG.lookup training_type

/-- The gram amounts the athlete allocator computes before rounding. -/
structure AthleteMacroCore where
  protein_grams : ℚ
  carbs_grams : ℚ
  fat_grams : ℚ
deriving DecidableEq

/-- Lines 255-276 of calculations.py: protein from the per-kg table; carbs
as the calorie remainder over 4, floored at 100 g; fat reduced toward 80% of
its per-kg minimum when the carb floor was hit. -/
def athleteMacroCore (daily_calories weight_kg : ℚ)
    (training_type training_phase : String) : Option AthleteMacroCore :=
  (proteinPerKg training_type training_phase).bind fun pv =>
    (fatPerKg training_type).map fun fv =>
      let protein_grams := weight_kg * pv
      let protein_calories := protein_grams * 4
      let min_fat_grams := weight_kg * fv
      let min_fat_calories := min_fat_grams * 9
      let remaining_calories := daily_calories - protein_calories - min_fat_calories
      let carbs_grams := max (remaining_calories / 4) 100
      let fat_grams :=
        if remaining_calories / 4 < 100 then
          let available_for_fat := daily_calories - protein_calories - 400
          max (available_for_fat / 9) (min_fat_grams * (8/10))
        else min_fat_grams
      ⟨protein_grams, carbs_grams, fat_grams⟩

/-- The returned macro record (grams and percentages rounded to 1 decimal). -/
structure MacroDistribution where
  protein_grams : ℚ
  protein_percentage : ℚ
  carbs_grams : ℚ
  carbs_percentage : ℚ
  fat_grams : ℚ
  fat_percentage : ℚ
deriving DecidableEq

/-- Embedding of `calculate_macros_athlete`: the core grams plus percentages over the
actual macro calorie sum. A zero calorie sum would divide by zero (`none`);
with a valid table row and positive weight it cannot occur. -/
def calculate_macros_athlete (daily_calories weight_kg : ℚ)
    (training_type training_phase : String) : Option MacroDistribution :=
  (athleteMacroCore daily_calories weight_kg training_type training_phase).bind
    fun core =>
      let protein_calories := core.protein_grams * 4
      let carbs_calories := core.carbs_grams * 4
      let fat_calories := core.fat_grams * 9
      let total_calories := protein_calories + carbs_calories + fat_calories
      if total_calories = 0 then none
      else some
        { protein_grams := round1 core.protein_grams
          protein_percentage := round1 (protein_calories / total_calories * 100)
          carbs_grams := round1 core.carbs_grams
          carbs_percentage := round1 (carbs_calories / total_calories * 100)
          fat_grams := round1 core.fat_grams
          fat_percentage := round1 (fat_calories / total_calories * 100) }

/-!
## ACWR computation and classification (`app/api/v1/athlete.py`)

`log_athlete_metrics` (lines 94-96) stores
`round(acute/chronic, 2) if acute_loads else 0` when `chronic_loads` is
truthy and positive, and leaves the ratio unset (`None`) otherwise.
`get_performance_summary` (lines 314-322) classifies the stored ratio.
-/

/-- The stored ACWR value: `none` when the chronic mean is absent or not
positive; 0 when the acute mean is absent or zero (falsy). -/
def computeACWR : Option ℚ → Option ℚ → Option ℚ
  | acute_loads, some c =>
    if 0 < c then
      some (match acute_loads with
            | some a => if a ≠ 0 then round2 (a / c) else 0
            | none => 0)
    else none
  | _, none => none

/-- ACWR risk-band classification. -/
def classifyACWR : Option ℚ → String
  | none => "unknown"
  | some r =>
    if 8/10 ≤ r ∧ r ≤ 13/10 then "optimal"
    else if r < 8/10 then "undertrained"
    else "high_injury_risk"

/-!
## Daily deficit status (`app/api/v1/deficit.py` lines 162-168)
-/

/-- Status of a day's net calorie balance. -/
def deficitStatus (net_balance : ℚ) : String :=
  if net_balance < -100 then "deficit"
  else if 100 < net_balance then "surplus"
  else "maintenance"

/-- Claim C9: the male and female Mifflin-St Jeor adjustments are 166 apart,
so `calculate_bmr` with gender male exceeds the female value by exactly 166
for every weight, height and age. -/
theorem bmr_male_female_gap (w h : ℚ) (a : ℤ) :
    calculate_bmr w h a Gender.male - calculate_bmr w h a Gender.female = 166 := by
  simp only [calculate_bmr]
  ring

/-- Claim C6: `calculate_daily_calories` returns at least 1200 kcal for every
tdee, every goal string, and every custom adjustment, however negative. -/
theorem daily_calories_floor_1200 (tdee : ℚ) (goal : String)
    (custom : Option ℤ) : 1200 ≤ calculate_daily_calories tdee goal custom := by
  simp only [calculate_daily_calories]
  exact le_max_right _ _

/-!
## Helper lemmas
-/

/-- Banker's rounding never goes below the floor. -/
theorem floor_le_pyRound (q : ℚ) : ⌊q⌋ ≤ pyRound q := by
  unfold pyRound
  dsimp only
  split_ifs <;> omega

/-- An integer bound below a rational is a bound on its banker's rounding. -/
theorem le_pyRound {n : ℤ} {q : ℚ} (h : (n : ℚ) ≤ q) : n ≤ pyRound q :=
  le_trans (Int.le_floor.mpr h) (floor_le_pyRound q)

/-- Clamping an integer to [0, 100]. -/
theorem clamp_bounds (n : ℤ) :
    0 ≤ min 100 (max 0 n) ∧ min 100 (max 0 n) ≤ 100 := by
  constructor <;> simp [min_def, max_def] <;> split_ifs <;> omega

/-- Dividing every list element distributes over the sum. -/
theorem sum_map_div (l : List ℚ) (c : ℚ) :
    (l.map fun x => x / c).sum = l.sum / c := by
  induction l with
  | nil => simp
  | cons a t ih => simp [ih, add_div]

/-- The HRV component weights are nonnegative. -/
theorem hrv_snd_nonneg {h b : Option ℤ} {l : List (ℚ × ℚ)}
    (hl : hrvComponent h b = some l) : 0 ≤ (l.map Prod.snd).sum := by
  cases h with
  | none =>
    simp only [hrvComponent, Option.some.injEq] at hl
    subst hl
    simp
  | some x =>
    cases b with
    | none =>
      simp only [hrvComponent, Option.some.injEq] at hl
      subst hl
      norm_num
    | some y =>
      simp only [hrvComponent] at hl
      split_ifs at hl
      all_goals
        simp only [Option.some.injEq] at hl
        subst hl
        norm_num

/-- The subjective component weights are nonnegative. -/
theorem subj_snd_nonneg (ms fl sl : Option ℤ) :
    0 ≤ ((subjectiveComponent ms fl sl).map Prod.snd).sum := by
  unfold subjectiveComponent
  dsimp only
  split_ifs
  · simp
  · norm_num

/-- The recovery weight list always sums to at least 3/5 = 0.35 + 0.25. -/
theorem recovery_weight_sum_ge {sh : ℚ} {rhr brhr : ℤ}
    {hrv bhrv ms fl sl : Option ℤ} {comps : List (ℚ × ℚ)}
    (hc : recoveryComponents sh rhr brhr hrv bhrv ms fl sl = some comps) :
    3/5 ≤ (comps.map Prod.snd).sum := by
  rcases Option.map_eq_some'.mp hc with ⟨hcl, hh, rfl⟩
  have h1 := hrv_snd_nonneg hh
  have h2 := subj_snd_nonneg ms fl sl
  simp only [List.map_append, List.sum_append, List.map_cons, List.map_nil,
    List.sum_cons, List.sum_nil]
  linarith

/-!
## Claim theorems
-/

/-- Claim C5: the daily deficit status is "deficit" exactly below −100,
"surplus" exactly above 100, and "maintenance" on [−100, 100], so both
boundary values classify as "maintenance". -/
theorem deficit_status_thresholds (nb : ℚ) :
    (deficitStatus nb = "deficit" ↔ nb < -100) ∧
    (deficitStatus nb = "surplus" ↔ 100 < nb) ∧
    (deficitStatus nb = "maintenance" ↔ (-100 ≤ nb ∧ nb ≤ 100)) := by
  unfold deficitStatus
  split_ifs with h1 h2 <;>
    refine ⟨?_, ?_, ?_⟩ <;> simp <;>
    first
      | linarith
      | (intro hx; linarith)
      | (constructor <;> linarith)

/-- Claim C1 counterexample: with sleep = 8 h, hr diff = 4, and no optional
inputs, `calculate_recovery_score` returns 91, not the claimed 93: the exact
normalized weights are 7/12 and 5/12, and `int(100·7/12 + 80·5/12) =
int(91.67) = 91`. -/
theorem recovery_two_component_returns_91_not_93 :
    calculate_recovery_score 8 64 60 none none none none none = some 91 ∧
    (91 : ℤ) ≠ 93 := by
  constructor
  · norm_num [calculate_recovery_score, recoveryComponents, hrvComponent,
      subjectiveComponent, subjectiveScores, sleepScore, hrScore, pyInt]
  · decide

/-- Claim C1 amended: for sleep_hours = 8 and |resting_hr − baseline| = 4
with no HRV or subjective inputs, the sleep component scores 100, the HR
component 80, the weights 0.35/0.25 renormalize to 7/12 and 5/12, and the
score is int(100·7/12 + 80·5/12) = int(275/3) = 91. -/
theorem recovery_two_component_score (resting_hr baseline_resting_hr : ℤ)
    (h : |resting_hr - baseline_resting_hr| = 4) :
    calculate_recovery_score 8 resting_hr baseline_resting_hr
      none none none none none = some 91 := by
  norm_num [calculate_recovery_score, recoveryComponents, hrvComponent,
    subjectiveComponent, subjectiveScores, sleepScore, hrScore, h, pyInt]

/-- Witness for the amended C1 at resting_hr = 64, baseline 60. -/
theorem recovery_two_component_score_witness :
    calculate_recovery_score 8 64 60 none none none none none = some 91 :=
  recovery_two_component_score 64 60 (by decide)

/-- Claim C2 counterexample: an unknown training type is a direct dict index
in `calculate_macros_athlete`, so it raises `KeyError` (`none`) instead of
resolving to a default. -/
theorem athlete_macros_unknown_type_faults :
    calculate_macros_athlete 3000 80 "yoga" "maintenance" = none := by
  have hp : proteinPerKg "yoga" "maintenance" = none := rfl
  norm_num [calculate_macros_athlete, athleteMacroCore, hp]

/-- Claim C2 amended: unknown activity levels default to multiplier 1.55 and
unknown goals to adjustment 0, but an unknown or invalid training_type or
training_phase makes `calculate_macros_athlete` raise `KeyError` rather than
resolve to a default. -/
theorem enum_fallback_policies (b t cal w : ℚ) (lvl goal tt tp : String)
    (hl : ACTIVITY_MULTIPLIERS.lookup lvl = none)
    (hg : GOAL_CALORIE_ADJUSTMENTS.lookup goal = none)
    (hp : proteinPerKg tt tp = none) :
    calculate_tdee b lvl = b * (155/100) ∧
    calculate_daily_calories t goal none = max (pyInt t) 1200 ∧
    calculate_macros_athlete cal w tt tp = none := by
  refine ⟨?_, ?_, ?_⟩
  · simp [calculate_tdee, hl]
  · simp [calculate_daily_calories, hg]
  · simp [calculate_macros_athlete, athleteMacroCore, hp]

/-- Witness for the amended C2 at concrete unknown keys. -/
theorem enum_fallback_policies_witness :
    calculate_tdee 2000 "super_active" = 2000 * (155/100) ∧
    calculate_daily_calories 1000 "get_fit" none = max (pyInt 1000) 1200 ∧
    calculate_macros_athlete 3000 80 "yoga" "maintenance" = none :=
  enum_fallback_policies 2000 1000 3000 80 "super_active" "get_fit" "yoga"
    "maintenance" rfl rfl rfl

/-- Claim C3 counterexample: `calculate_readiness_score` divides by
`avg_sleep_hours` without a guard, so `avg_sleep_hours = 0` raises
`ZeroDivisionError` instead of returning a value. -/
theorem readiness_faults_on_zero_avg_sleep :
    calculate_readiness_score 50 70 70 8 0 = none := by
  norm_num [calculate_readiness_score]

/-- Claim C3 amended: the chronic-average division is guarded to the neutral
sentinel 50, and the weight-normalization denominator is nonzero, but the
sleep-vs-average ratio in `calculate_readiness_score` is unguarded: the
function faults exactly when avg_sleep_hours = 0 and returns a value on every
other input. -/
theorem readiness_total_iff_avg_sleep_nonzero (recovery : ℤ)
    (l7 l28 sh avg : ℚ) :
    ((calculate_readiness_score recovery l7 l28 sh avg).isSome ↔ avg ≠ 0) ∧
    (l28 ≤ 0 → acwrScoreOf l7 l28 = 50) := by
  constructor
  · unfold calculate_readiness_score
    split_ifs with h <;> simp [h]
  · intro h
    unfold acwrScoreOf
    rw [if_neg (not_lt.mpr h)]

/-- Witness for the amended C3 at concrete inputs. -/
theorem readiness_total_iff_avg_sleep_nonzero_witness :
    (calculate_readiness_score 80 70 70 (15/2) (15/2)).isSome ∧
    acwrScoreOf 70 0 = 50 :=
  ⟨(readiness_total_iff_avg_sleep_nonzero 80 70 70 (15/2) (15/2)).1.mpr
      (by norm_num),
   (readiness_total_iff_avg_sleep_nonzero 80 70 0 (15/2) (15/2)).2 le_rfl⟩

/-- Claim C4 counterexample: the stored ratio is `round(acute/chronic, 2)`,
so acute = 199, chronic = 250 (exact ratio 0.796 < 0.8, which the claim maps
to "undertrained") stores 0.80 and classifies as "optimal". -/
theorem acwr_rounding_crosses_band :
    classifyACWR (computeACWR (some 199) (some 250)) = "optimal" ∧
    (199/250 : ℚ) < 8/10 := by
  norm_num [computeACWR, classifyACWR, round2, pyRound]

/-- Claim C4 amended: the classification maps a defined stored ratio r with
0.8 ≤ r ≤ 1.3 to "optimal", r < 0.8 to "undertrained", r > 1.3 to
"high_injury_risk", and an undefined ratio (chronic mean zero or absent) to
"unknown" — where the stored ratio is `round(acute/chronic, 2)`, the quotient
rounded to two decimals, when the chronic mean is positive. -/
theorem acwr_classification (r a c : ℚ) (acute : Option ℚ) :
    (classifyACWR none = "unknown") ∧
    (8/10 ≤ r → r ≤ 13/10 → classifyACWR (some r) = "optimal") ∧
    (r < 8/10 → classifyACWR (some r) = "undertrained") ∧
    (13/10 < r → classifyACWR (some r) = "high_injury_risk") ∧
    (computeACWR acute none = none) ∧
    (computeACWR acute (some 0) = none) ∧
    (0 < c → computeACWR (some a) (some c) = some (round2 (a / c))) := by
  refine ⟨rfl, ?_, ?_, ?_, ?_, ?_, ?_⟩
  · intro h1 h2
    simp [classifyACWR, h1, h2]
  · intro h1
    have : ¬(8/10 ≤ r ∧ r ≤ 13/10) := fun hc => absurd h1 (not_lt.mpr hc.1)
    simp [classifyACWR, this, h1]
  · intro h1
    have h2 : ¬(8/10 ≤ r ∧ r ≤ 13/10) := fun hc => absurd h1 (not_lt.mpr hc.2)
    have h3 : ¬(r < 8/10) := by push_neg; linarith
    simp [classifyACWR, h2, h3]
  · cases acute <;> rfl
  · cases acute <;> simp [computeACWR]
  · intro hc
    rcases eq_or_ne a 0 with rfl | ha
    · simp [computeACWR, hc, round2, pyRound]
    · simp [computeACWR, hc, ha]

/-- Witness for the amended C4 at the spec's example inputs. -/
theorem acwr_classification_witness :
    classifyACWR (some 1) = "optimal" ∧
    classifyACWR (some (2/5)) = "undertrained" ∧
    classifyACWR (some 2) = "high_injury_risk" ∧
    computeACWR (some 40) (some 0) = none ∧
    computeACWR (some 70) (some 70) = some (round2 (70 / 70)) :=
  ⟨(acwr_classification 1 70 70 (some 70)).2.1 (by norm_num) (by norm_num),
   (acwr_classification (2/5) 70 70 (some 70)).2.2.1 (by norm_num),
   (acwr_classification 2 70 70 (some 70)).2.2.2.1 (by norm_num),
   (acwr_classification 1 40 0 (some 40)).2.2.2.2.2.1,
   (acwr_classification 1 70 70 (some 70)).2.2.2.2.2.2 (by norm_num)⟩

/-- Every fat-table value is positive. -/
theorem fatPerKg_pos {tt : String} {fv : ℚ} (hf : fatPerKg tt = some fv) :
    0 < fv := by
  simp only [fatPerKg, FAT_PER_KG, List.lookup] at hf
  repeat' split at hf
  all_goals first
    | exact Option.noConfusion hf
    | (simp only [Option.some.injEq] at hf; subst hf; norm_num)

/-- Claim C7: with a valid training type and phase and positive weight, the
athlete allocator keeps carbs at or above 100 g (both before and after
rounding), computes protein as exactly weight × the per-kg table value —
untouched by the carb-floor adjustment — and never takes fat below 80% of
its per-kg minimum. -/
theorem athlete_macro_floors (cal w : ℚ) (tt tp : String) (pv fv : ℚ)
    (core : AthleteMacroCore) (hw : 0 < w)
    (hp : proteinPerKg tt tp = some pv) (hf : fatPerKg tt = some fv)
    (hc : athleteMacroCore cal w tt tp = some core) :
    100 ≤ core.carbs_grams ∧
    core.protein_grams = w * pv ∧
    (8/10) * (w * fv) ≤ core.fat_grams ∧
    ∀ md : MacroDistribution, calculate_macros_athlete cal w tt tp = some md →
      100 ≤ md.carbs_grams := by
  have hfv : 0 < fv := fatPerKg_pos hf
  have hc2 := hc
  obtain ⟨P, C, F⟩ := core
  simp only [athleteMacroCore, hp, hf, Option.some_bind, Option.map_some',
    Option.some.injEq, AthleteMacroCore.mk.injEq] at hc
  obtain ⟨hP, hC, hF⟩ := hc
  refine ⟨?_, ?_, ?_, ?_⟩
  · rw [← hC]
    exact le_max_right _ _
  · exact hP.symm
  · rw [← hF]
    split_ifs with h
    · have : w * fv * (8/10) ≤ max ((cal - w * pv * 4 - 400) / 9) (w * fv * (8/10)) :=
        le_max_right _ _
      linarith
    · have hwf : 0 < w * fv := mul_pos hw hfv
      nlinarith
  · intro md hmd
    simp only [calculate_macros_athlete, hc2, Option.some_bind] at hmd
    split_ifs at hmd with htot
    · simp only [Option.some.injEq] at hmd
      have hcarb : md.carbs_grams = round1 C := by rw [← hmd]
      have h1000 : ((1000 : ℤ) : ℚ) ≤ C * 10 := by
        push_cast
        have := le_max_right ((cal - w * pv * 4 - w * fv * 9) / 4) (100 : ℚ)
        rw [hC] at this
        linarith
      have h2 : (1000 : ℤ) ≤ pyRound (C * 10) := le_pyRound h1000
      have h3 : ((1000 : ℚ)) ≤ (pyRound (C * 10) : ℚ) := by exact_mod_cast h2
      rw [hcarb, round1]
      linarith

/-- Witness for C7 at daily_calories = 1000, weight 80 kg, strength/cutting:
the calorie remainder is negative, so carbs are floored at 100 g and fat is
cut to 80% of its minimum (51.2 g); protein stays 80 × 2.4 = 192 g. -/
theorem athlete_macro_floors_witness :
    100 ≤ (⟨192, 100, 256/5⟩ : AthleteMacroCore).carbs_grams ∧
    (⟨192, 100, 256/5⟩ : AthleteMacroCore).protein_grams = 80 * (24/10) ∧
    (8/10) * (80 * (8/10)) ≤ (⟨192, 100, 256/5⟩ : AthleteMacroCore).fat_grams := by
  have h := athlete_macro_floors 1000 80 "strength" "cutting" (24/10) (8/10)
    ⟨192, 100, 256/5⟩ (by norm_num) rfl rfl (by
      have hp : proteinPerKg "strength" "cutting" = some (24/10) := rfl
      have hf : fatPerKg "strength" = some (8/10) := rfl
      norm_num [athleteMacroCore, hp, hf])
  exact ⟨h.1, h.2.1, h.2.2.1⟩

/-- Claim C8: every recovery and readiness score that is returned is an
integer in [0, 100], and the recovery composite renormalizes its weights so
that the normalized weights of the components actually present sum to 1. -/
theorem scores_clamped_and_weights_renormalized :
    (∀ (sh : ℚ) (rhr brhr : ℤ) (hrv bhrv ms fl sl : Option ℤ) (v : ℤ),
        calculate_recovery_score sh rhr brhr hrv bhrv ms fl sl = some v →
        0 ≤ v ∧ v ≤ 100) ∧
    (∀ (recovery : ℤ) (l7 l28 sh avg : ℚ) (v : ℤ),
        calculate_readiness_score recovery l7 l28 sh avg = some v →
        0 ≤ v ∧ v ≤ 100) ∧
    (∀ (sh : ℚ) (rhr brhr : ℤ) (hrv bhrv ms fl sl : Option ℤ)
        (comps : List (ℚ × ℚ)),
        recoveryComponents sh rhr brhr hrv bhrv ms fl sl = some comps →
        (comps.map fun p => p.2 / (comps.map Prod.snd).sum).sum = 1) := by
  refine ⟨?_, ?_, ?_⟩
  · intro sh rhr brhr hrv bhrv ms fl sl v hv
    unfold calculate_recovery_score at hv
    rcases Option.map_eq_some'.mp hv with ⟨comps, _, hval⟩
    rw [← hval]
    exact clamp_bounds _
  · intro recovery l7 l28 sh avg v hv
    unfold calculate_readiness_score at hv
    split_ifs at hv
    simp only [Option.some.injEq] at hv
    rw [← hv]
    exact clamp_bounds _
  · intro sh rhr brhr hrv bhrv ms fl sl comps hcomp
    have h35 := recovery_weight_sum_ge hcomp
    have hne : (comps.map Prod.snd).sum ≠ 0 := by
      intro h0
      rw [h0] at h35
      norm_num at h35
    have hmm : (comps.map fun p => p.2 / (comps.map Prod.snd).sum) =
        ((comps.map Prod.snd).map fun x => x / (comps.map Prod.snd).sum) := by
      rw [List.map_map]
      rfl
    rw [hmm, sum_map_div]
    exact div_self hne

/-- Witness for C8: the two-component recovery score 91 and the readiness
score 92 lie in [0, 100], and the two weights 0.35 and 0.25 renormalize to a
sum of 1. -/
theorem scores_clamped_witness :
    ((0:ℤ) ≤ 91 ∧ (91:ℤ) ≤ 100) ∧ ((0:ℤ) ≤ 92 ∧ (92:ℤ) ≤ 100) ∧
    (([((100:ℚ), (7:ℚ)/20), ((80:ℚ), (1:ℚ)/4)].map
        fun p => p.2 /
          ([((100:ℚ), (7:ℚ)/20), ((80:ℚ), (1:ℚ)/4)].map Prod.snd).sum).sum = 1) :=
  ⟨scores_clamped_and_weights_renormalized.1 8 64 60 none none none none none
      91 (by norm_num [calculate_recovery_score, recoveryComponents,
        hrvComponent, subjectiveComponent, subjectiveScores, sleepScore,
        hrScore, pyInt]),
   scores_clamped_and_weights_renormalized.2.1 80 70 70 (15/2) (15/2) 92
      (by norm_num [calculate_readiness_score, acwrScoreOf, pyInt]),
   scores_clamped_and_weights_renormalized.2.2 8 64 60 none none none none
      none _ (by norm_num [recoveryComponents, hrvComponent,
        subjectiveComponent, subjectiveScores, sleepScore, hrScore])⟩

/-- Claim C10: the sleep and resting-HR components head the component list
on every input, so the weight total is at least 0.60 and the normalization
divisor is never zero. -/
theorem recovery_weights_unconditional (sh : ℚ) (rhr brhr : ℤ)
    (hrv bhrv ms fl sl : Option ℤ) (comps : List (ℚ × ℚ))
    (hc : recoveryComponents sh rhr brhr hrv bhrv ms fl sl = some comps) :
    comps.take 2 = [(sleepScore sh, 7/20), (hrScore rhr brhr, 1/4)] ∧
    3/5 ≤ (comps.map Prod.snd).sum ∧
    (comps.map Prod.snd).sum ≠ 0 := by
  have h35 := recovery_weight_sum_ge hc
  refine ⟨?_, h35, ?_⟩
  · rcases Option.map_eq_some'.mp hc with ⟨hcl, _, hval⟩
    rw [← hval]
    simp
  · intro h0
    rw [h0] at h35
    norm_num at h35

/-- Witness for C10 on the two-component input. -/
theorem recovery_weights_unconditional_witness :
    ([((100:ℚ), (7:ℚ)/20), ((80:ℚ), (1:ℚ)/4)].take 2 =
      [(sleepScore 8, 7/20), (hrScore 64 60, 1/4)]) ∧
    3/5 ≤ ([((100:ℚ), (7:ℚ)/20), ((80:ℚ), (1:ℚ)/4)].map Prod.snd).sum ∧
    ([((100:ℚ), (7:ℚ)/20), ((80:ℚ), (1:ℚ)/4)].map Prod.snd).sum ≠ 0 :=
  recovery_weights_unconditional 8 64 60 none none none none none
    [((100:ℚ), (7:ℚ)/20), ((80:ℚ), (1:ℚ)/4)]
    (by norm_num [recoveryComponents, hrvComponent, subjectiveComponent,
      subjectiveScores, sleepScore, hrScore])

end WellNest
